import Mathlib

/-!
Verification of the realtime relay (`src/realtime/index.js`) of
microserver-vue-lumen-rabbit.

The relay keeps a registry of WebSocket client connections (`wsClients`),
consumes a durable RabbitMQ queue with retry/backoff (`connectToRabbit`,
`consumeQueue`), re-broadcasts messages to all open connections
(`broadcast`), and prunes dead connections with a ping/pong heartbeat.

This file is a shallow embedding of that code: JS values become Lean data,
the event handlers become pure functions from their inputs to the effects
they perform (messages sent, acks issued, registry updates), and the
builtin `JSON.parse` is a parameter `parse : String → Option Json` since it
is not code of this repository.
-/

/-- A JSON value, the data the relay passes around. -/
inductive Json where
  | null : Json
  | bool : Bool → Json
  | num : Int → Json
  | str : String → Json
  | arr : List Json → Json
  | obj : List (String × Json) → Json

/-- Escaping of one character inside a JSON string literal
(JSON.stringify escapes the quote and the backslash). -/
def escChar (c : Char) : String :=
  if c = '"' then "\\\"" else if c = '\\' then "\\\\" else String.singleton c

/-- Escaping of a whole string for a JSON string literal. -/
def escStr (s : String) : String :=
  String.join (s.toList.map escChar)

mutual
/-- `JSON.stringify` on the embedded `Json` values: the serialization the
relay applies before every `broadcast` call. -/
def stringify : Json → String
  | Json.null => "null"
  | Json.bool true => "true"
  | Json.bool false => "false"
  | Json.num n => toString n
  | Json.str s => "\"" ++ escStr s ++ "\""
  | Json.arr xs => "[" ++ stringifyArr xs ++ "]"
  | Json.obj fs => "\x7b" ++ stringifyObj fs ++ "\x7d"

/-- Serialization of the elements of a JSON array, comma-separated. -/
def stringifyArr : List Json → String
  | [] => ""
  | [x] => stringify x
  | x :: y :: xs => stringify x ++ "," ++ stringifyArr (y :: xs)

/-- Serialization of the fields of a JSON object, comma-separated. -/
def stringifyObj : List (String × Json) → String
  | [] => ""
  | [(k, v)] => "\"" ++ escStr k ++ "\":" ++ stringify v
  | (k, v) :: f :: fs =>
      "\"" ++ escStr k ++ "\":" ++ stringify v ++ "," ++ stringifyObj (f :: fs)
end

/-- `WebSocket.OPEN` readyState constant of the ws library. -/
def WS_OPEN : Nat := 1

/-- `WebSocket.CLOSED` readyState constant of the ws library. -/
def WS_CLOSED : Nat := 3

/-- One WebSocket client connection as the relay sees it: an identity,
the ws `readyState`, the heartbeat flag `isAlive` set by the pong handler,
and whether a send on it succeeds (`ws.send` on an open socket reports
failure asynchronously via the error event, it does not throw into the
caller). -/
structure Conn where
  id : Nat
  readyState : Nat
  isAlive : Bool
  sendOk : Bool
deriving DecidableEq, Repr

/-- The loop body of `broadcast`: iterate the `Array.from(wsClients)`
snapshot; for each client whose `readyState === WebSocket.OPEN` call
`client.send(msg)`, otherwise skip it. Returns the ids send was called on
and the `(id, msg)` pairs actually delivered. -/
def broadcastLoop (msg : String) : List Conn → List Nat × List (Nat × String)
  | [] => ([], [])
  | c :: rest =>
    let r := broadcastLoop msg rest
    if c.readyState = WS_OPEN then
      (c.id :: r.1, if c.sendOk then (c.id, msg) :: r.2 else r.2)
    else r

/-- The outcome of one `broadcast(msg)` call. -/
structure BroadcastResult where
  attempts : List Nat
  delivered : List (Nat × String)
  registry : List Conn
deriving DecidableEq, Repr

/-- `broadcast(msg)` from `src/realtime/index.js`: sends `msg` to every
client of the snapshot whose readyState is OPEN; it never touches
`wsClients`, so the registry afterwards is the registry before. -/
def broadcast (clients : List Conn) (msg : String) : BroadcastResult :=
  let r := broadcastLoop msg clients
  ⟨r.1, r.2, clients⟩

/-- The `ws.on('close')` handler: `wsClients.delete(ws)`. -/
def closeHandler (clients : List Conn) (ws : Conn) : List Conn :=
  clients.erase ws

/-- The outcome of one heartbeat tick. -/
structure TickResult where
  registry : List Conn
  pinged : List Nat
  terminated : List Nat
deriving DecidableEq, Repr

/-- One tick of the heartbeat `setInterval` callback in `start`:

    for (const ws of Array.from(wsClients)) {
      if (!ws.isAlive) return ws.terminate();
      ws.isAlive = false;
      ws.ping(() => {});
    }

`ws.terminate()` destroys the socket, whose close event removes it from
`wsClients`; the `return` exits the whole callback, so the remaining
connections of the snapshot are left untouched at that tick. -/
def heartbeatTick : List Conn → TickResult
  | [] => ⟨[], [], []⟩
  | c :: rest =>
    if c.isAlive = false then
      ⟨rest, [], [c.id]⟩
    else
      let r := heartbeatTick rest
      ⟨{ c with isAlive := false } :: r.registry, c.id :: r.pinged, r.terminated⟩

/-- The retry ceiling of `connectToRabbit`: `Math.min(delay * 2, 30000)`. -/
def RETRY_CEILING_MS : Nat := 30000

/-- The value of `delay` in `connectToRabbit` when the `(k+1)`-th wait
starts: `delay` is initialized to `INITIAL_DELAY_MS` and after each wait
updated by `delay = Math.min(delay * 2, 30000)`. -/
def delayAfter (initial : Nat) : Nat → Nat
  | 0 => initial
  | k + 1 => min (delayAfter initial k * 2) RETRY_CEILING_MS

/-- The length of the `n`-th wait (`n ≥ 1`) of `connectToRabbit` given the
jitter `Math.floor(Math.random() * 300)` sampled for it:
`waitMs = delay + jitter`. -/
def nthWaitMs (initial n jitter : Nat) : Nat :=
  delayAfter initial (n - 1) + jitter

/-- The retry loop of `connectToRabbit`, starting at attempt number
`attempt`: `outcome n = none` means the `n`-th `amqp.connect` succeeds,
`outcome n = some e` means it throws error `e`.  Returns the number of
attempts made, and `.ok` on success or `.error e` when the attempt with
`attempt >= MAX_RETRIES` fails (the loop rethrows the last error). -/
def connectFrom (maxRetries : Nat) (outcome : Nat → Option String)
    (attempt : Nat) : Nat × Except String Unit :=
  match outcome attempt with
  | none => (attempt, Except.ok ())
  | some err =>
    if maxRetries ≤ attempt then (attempt, Except.error err)
    else connectFrom maxRetries outcome (attempt + 1)
termination_by maxRetries - attempt
decreasing_by simp_wf; omega

/-- `connectToRabbit`: the retry loop entered with `attempt = 0` and
incremented to 1 before the first try. -/
def connectToRabbitRun (maxRetries : Nat) (outcome : Nat → Option String) :
    Nat × Except String Unit :=
  connectFrom maxRetries outcome 1

/-- An effect the queue consumer callback performs on the channel or the
clients. -/
inductive QEffect where
  | broadcastMsg : String → QEffect
  | ack : QEffect
  | nack : Bool → QEffect
deriving DecidableEq, Repr

/-- The payload the consumer computes from the queue content bytes:

    let payload;
    try { payload = JSON.parse(content); } catch (e) { payload = { raw: content }; }
-/
def payloadOf (parse : String → Option Json) (content : String) : Json :=
  match parse content with
  | some p => p
  | none => Json.obj [("raw", Json.str content)]

/-- The wrapped message the consumer broadcasts:
`JSON.stringify({ source: 'realtime', payload })`. -/
def wrappedMsg (parse : String → Option Json) (content : String) : String :=
  stringify (Json.obj [("source", Json.str "realtime"),
                       ("payload", payloadOf parse content)])

/-- The consumer callback registered by `consumeQueue`.  `msg = none` is
the broker's cancellation signal (`if (!msg) return;`), `some content`
a delivered message with those content bytes.  `bodyThrows` abstracts an
exception escaping the try block at the broadcast step (the JSON.parse is
guarded by its own inner try/catch and cannot escape); on an exception the
catch block runs `channel.nack(msg, false, false)`. -/
def consumeCallback (parse : String → Option Json) (msg : Option String)
    (bodyThrows : Bool) : List QEffect :=
  match msg with
  | none => []
  | some content =>
    if bodyThrows then [QEffect.nack false]
    else [QEffect.broadcastMsg (wrappedMsg parse content), QEffect.ack]

/-- Whether an effect settles the queue message (ack or nack). -/
def isSettlement : QEffect → Bool
  | QEffect.ack => true
  | QEffect.nack _ => true
  | QEffect.broadcastMsg _ => false

/-- The `ws.on('message')` handler:

    try {
      const data = JSON.parse(message);
      broadcast(JSON.stringify(data));
    } catch (e) { console.warn(...); }

Returns the string passed to `broadcast`, or `none` when the parse fails
and nothing is broadcast. -/
def messageHandler (parse : String → Option Json) (message : String) :
    Option String :=
  match parse message with
  | some data => some (stringify data)
  | none => none

/-- A milestone of the relay's startup. -/
inductive StartEvent where
  | wsListen : StartEvent
  | queueConnect : StartEvent
  | consumeStart : StartEvent
  | monitorStart : StartEvent
  | readyLog : StartEvent
deriving DecidableEq, Repr

/-- The order of startup milestones when the module is executed:
`new WebSocket.Server({ port: WS_PORT })` runs at module load, before
`start()` is invoked; `start` then awaits `connectToRabbit`, awaits
`consumeQueue`, installs the heartbeat `setInterval` and logs readiness.
`connectOk` is whether `connectToRabbit` eventually succeeds (otherwise
`start` falls into its catch block and exits). -/
def startupTrace (connectOk : Bool) : List StartEvent :=
  StartEvent.wsListen ::
    (if connectOk then
      [StartEvent.queueConnect, StartEvent.consumeStart,
       StartEvent.monitorStart, StartEvent.readyLog]
     else [])

/-! ## Helper lemmas -/

/-- Every open connection of the snapshot with a succeeding send receives
the message from the broadcast loop. -/
theorem broadcastLoop_delivered_mem (msg : String) :
    ∀ (clients : List Conn) (c : Conn), c ∈ clients → c.readyState = WS_OPEN →
      c.sendOk = true → (c.id, msg) ∈ (broadcastLoop msg clients).2 := by
  intro clients
  induction clients with
  | nil => intro c hc _ _; cases hc
  | cons d rest ih =>
    intro c hc hopen hok
    rcases List.mem_cons.mp hc with h | h
    · subst h
      simp [broadcastLoop, hopen, hok]
    · have hmem := ih c h hopen hok
      by_cases hd : d.readyState = WS_OPEN
      · by_cases hs : d.sendOk = true
        · simp [broadcastLoop, hd, hs]
          right
          exact hmem
        · simp [broadcastLoop, hd, hs]
          exact hmem
      · simp [broadcastLoop, hd]
        exact hmem

/-- Send is only ever attempted on connections of the snapshot that are in
the open state. -/
theorem broadcastLoop_attempts_open (msg : String) :
    ∀ (clients : List Conn) (i : Nat), i ∈ (broadcastLoop msg clients).1 →
      ∃ c, c ∈ clients ∧ c.id = i ∧ c.readyState = WS_OPEN := by
  intro clients
  induction clients with
  | nil => intro i hi; simp [broadcastLoop] at hi
  | cons d rest ih =>
    intro i hi
    by_cases hd : d.readyState = WS_OPEN
    · simp [broadcastLoop, hd] at hi
      rcases hi with hi | hi
      · exact ⟨d, List.mem_cons_self d rest, hi.symm, hd⟩
      · obtain ⟨c, hc, hci, hco⟩ := ih i hi
        exact ⟨c, List.mem_cons_of_mem d hc, hci, hco⟩
    · simp [broadcastLoop, hd] at hi
      obtain ⟨c, hc, hci, hco⟩ := ih i hi
      exact ⟨c, List.mem_cons_of_mem d hc, hci, hco⟩

/-- For an initial delay below the ceiling, the `delay` variable of
`connectToRabbit` after `k` doublings is the capped exponential. -/
theorem delayAfter_eq_min (initial : Nat) (hinit : initial ≤ RETRY_CEILING_MS) :
    ∀ k, delayAfter initial k = min (initial * 2 ^ k) RETRY_CEILING_MS := by
  intro k
  induction k with
  | zero =>
    simp [delayAfter]
    unfold RETRY_CEILING_MS at hinit ⊢
    omega
  | succ n ih =>
    rw [delayAfter, ih, pow_succ, ← mul_assoc]
    generalize initial * 2 ^ n = x
    unfold RETRY_CEILING_MS
    omega

/-- When every attempt fails, the retry loop entered at attempt `a` with
`maxRetries = a + k` makes the remaining attempts and rethrows the error
of attempt number `maxRetries`. -/
theorem connectFrom_all_fail (maxRetries : Nat) (outcome : Nat → Option String)
    (errf : Nat → String) (hout : ∀ n, outcome n = some (errf n)) :
    ∀ (k a : Nat), 1 ≤ a → maxRetries = a + k →
      connectFrom maxRetries outcome a
        = (maxRetries, Except.error (errf maxRetries)) := by
  intro k
  induction k with
  | zero =>
    intro a _ hm
    have haa : a = maxRetries := by omega
    subst haa
    unfold connectFrom
    rw [hout a]
    simp
  | succ n ih =>
    intro a ha hm
    unfold connectFrom
    rw [hout a]
    have hlt : ¬ maxRetries ≤ a := by omega
    simp [hlt]
    exact ih (a + 1) (by omega) (by omega)

/-! ## Claims -/

/-- C1: the claim says every non-alive connection is terminated and
removed at each heartbeat tick and every alive one is pinged with its flag
cleared, regardless of position.  The code instead executes
`return ws.terminate()` inside the `for...of` loop, which exits the whole
tick callback at the first non-alive connection: here, with registry
`[c0 dead, c1 dead]`, only `c0` is terminated and `c1` stays in the
registry un-terminated; and with `[c0 dead, c2 alive]`, `c2` is neither
pinged nor has its flag cleared at that tick. -/
theorem heartbeat_return_bug :
    heartbeatTick [Conn.mk 0 WS_OPEN false true, Conn.mk 1 WS_OPEN false true]
      = ⟨[Conn.mk 1 WS_OPEN false true], [], [0]⟩
    ∧ (Conn.mk 1 WS_OPEN false true) ∈
        (heartbeatTick [Conn.mk 0 WS_OPEN false true,
                        Conn.mk 1 WS_OPEN false true]).registry
    ∧ (Conn.mk 1 WS_OPEN false true).isAlive = false
    ∧ heartbeatTick [Conn.mk 0 WS_OPEN false true, Conn.mk 2 WS_OPEN true true]
      = ⟨[Conn.mk 2 WS_OPEN true true], [], [0]⟩
    ∧ (heartbeatTick [Conn.mk 0 WS_OPEN false true,
                      Conn.mk 2 WS_OPEN true true]).pinged = [] := by
  decide

/-- C2: broadcast delivers the message to every connection of the
registry snapshot that is open (and whose send succeeds at the transport),
and send is only attempted on open connections — a closed connection or a
failing send is skipped for that connection only and does not prevent any
other open connection from receiving the message; the function is total,
no exception escapes. -/
theorem broadcast_fault_isolation (clients : List Conn) (msg : String) :
    (∀ c, c ∈ clients → c.readyState = WS_OPEN → c.sendOk = true →
        (c.id, msg) ∈ (broadcast clients msg).delivered)
    ∧ (∀ i, i ∈ (broadcast clients msg).attempts →
        ∃ c, c ∈ clients ∧ c.id = i ∧ c.readyState = WS_OPEN) :=
  ⟨fun c hc ho hs => broadcastLoop_delivered_mem msg clients c hc ho hs,
   fun i hi => broadcastLoop_attempts_open msg clients i hi⟩

/-- Witness for C2: with registry `[c1 open, c2 closed, c3 open]`, both
`c1` and `c3` receive the message even though `c2` is closed. -/
theorem broadcast_fault_isolation_witness :
    ((1 : Nat), "m") ∈
      (broadcast [Conn.mk 1 WS_OPEN true true, Conn.mk 2 WS_CLOSED true true,
                  Conn.mk 3 WS_OPEN true true] "m").delivered
    ∧ ((3 : Nat), "m") ∈
      (broadcast [Conn.mk 1 WS_OPEN true true, Conn.mk 2 WS_CLOSED true true,
                  Conn.mk 3 WS_OPEN true true] "m").delivered :=
  ⟨(broadcast_fault_isolation _ "m").1 (Conn.mk 1 WS_OPEN true true)
      (by decide) rfl rfl,
   (broadcast_fault_isolation _ "m").1 (Conn.mk 3 WS_OPEN true true)
      (by decide) rfl rfl⟩

/-- Counterexample to C3: a closed connection fails to accept delivery
(no send is even attempted on it), yet after `broadcast` it is still in
the registry — `broadcast` removes nothing. -/
theorem broadcast_no_removal_cex :
    (Conn.mk 2 WS_CLOSED true true).readyState ≠ WS_OPEN
    ∧ (broadcast [Conn.mk 2 WS_CLOSED true true] "m").attempts = []
    ∧ (Conn.mk 2 WS_CLOSED true true) ∈
        (broadcast [Conn.mk 2 WS_CLOSED true true] "m").registry := by
  decide

/-- C3 amended: `broadcast` never modifies the Connection Registry — the
registry after a broadcast equals the registry before, so an entry that
failed to accept delivery remains registered (it is removed only later by
the close-event handler or the liveness monitor, not by the Broadcaster). -/
theorem broadcast_registry_unchanged (clients : List Conn) (msg : String) :
    (broadcast clients msg).registry = clients
    ∧ (∀ c, c ∈ clients → c.readyState ≠ WS_OPEN →
        c ∈ (broadcast clients msg).registry) :=
  ⟨rfl, fun _ hc _ => hc⟩

/-- Witness for C3 amended: a concrete closed connection remains in the
registry after broadcast. -/
theorem broadcast_registry_unchanged_witness :
    (Conn.mk 4 WS_CLOSED true true) ∈
      (broadcast [Conn.mk 4 WS_CLOSED true true] "x").registry :=
  (broadcast_registry_unchanged [Conn.mk 4 WS_CLOSED true true] "x").2
    (Conn.mk 4 WS_CLOSED true true) (by decide) (by decide)

/-- Counterexample to C4: with a configured initial delay of 60000 ms
(above the 30000 ms ceiling) the first wait is the uncapped
`60000 + jitter`, not `min(60000 * 2^0, 30000) + jitter = 30000 + jitter`
as the claim's formula states for every configured initial delay. -/
theorem backoff_first_wait_uncapped_cex :
    nthWaitMs 60000 1 0 = 60000
    ∧ min (60000 * 2 ^ (1 - 1)) RETRY_CEILING_MS + 0 = 30000
    ∧ nthWaitMs 60000 1 0 ≠ min (60000 * 2 ^ (1 - 1)) RETRY_CEILING_MS + 0 := by
  decide

/-- C4 amended: provided the configured initial delay is at most the
30000 ms ceiling, the wait before the (N+1)-th attempt after N consecutive
failures equals `min(initial * 2^(N-1), 30000) + jitter`, the jitter being
the code's `Math.floor(Math.random() * 300)` sample in `[0, 300)`. -/
theorem backoff_wait_formula (initial n jitter : Nat)
    (hinit : initial ≤ RETRY_CEILING_MS) (hn : 1 ≤ n) (hj : jitter < 300) :
    nthWaitMs initial n jitter
      = min (initial * 2 ^ (n - 1)) RETRY_CEILING_MS + jitter := by
  unfold nthWaitMs
  rw [delayAfter_eq_min initial hinit (n - 1)]

/-- Witness for C4 amended: with the default initial delay 1000 ms, the
6th wait with jitter 250 is `min(1000 * 2^5, 30000) + 250 = 30250` — the
ceiling is active. -/
theorem backoff_wait_formula_witness :
    nthWaitMs 1000 6 250 = min (1000 * 2 ^ (6 - 1)) RETRY_CEILING_MS + 250
    ∧ nthWaitMs 1000 6 250 = 30250 :=
  ⟨backoff_wait_formula 1000 6 250 (by decide) (by decide) (by decide),
   by decide⟩

/-- C5: when every connect attempt fails, `connectToRabbit` makes exactly
`MAX_RETRIES` attempts (for any retry budget of at least one) and then
propagates the error of the last attempt to the caller; the attempt count
of the result never exceeds `MAX_RETRIES` and no further retry occurs. -/
theorem retry_exhaustion (maxRetries : Nat) (outcome : Nat → Option String)
    (errf : Nat → String) (hmax : 1 ≤ maxRetries)
    (hout : ∀ n, outcome n = some (errf n)) :
    connectToRabbitRun maxRetries outcome
      = (maxRetries, Except.error (errf maxRetries)) :=
  connectFrom_all_fail maxRetries outcome errf hout (maxRetries - 1) 1
    (le_refl 1) (by omega)

/-- Witness for C5: with a budget of 3 and every attempt failing with
"boom", the run is exactly 3 attempts ending in `error "boom"`. -/
theorem retry_exhaustion_witness :
    connectToRabbitRun 3 (fun _ => some "boom") = (3, Except.error "boom") :=
  retry_exhaustion 3 (fun _ => some "boom") (fun _ => "boom")
    (by decide) (fun _ => rfl)

/-- C6: on a delivered queue message with content bytes `content` whose
processing raises no exception, the consumer broadcasts exactly the
serialized `{ source: "realtime", payload }` wrapper — the payload being
the JSON parse of the content when it parses, and `{ raw: content }` when
it does not — and then acknowledges (never negatively-acknowledges); in
particular non-JSON content is wrapped and acknowledged, not dropped. -/
theorem queue_wrap_and_ack (parse : String → Option Json) (content : String) :
    consumeCallback parse (some content) false
      = [QEffect.broadcastMsg (wrappedMsg parse content), QEffect.ack]
    ∧ (∀ p, parse content = some p → payloadOf parse content = p)
    ∧ (parse content = none →
        payloadOf parse content = Json.obj [("raw", Json.str content)]) := by
  refine ⟨rfl, ?_, ?_⟩
  · intro p hp
    simp [payloadOf, hp]
  · intro hp
    simp [payloadOf, hp]

/-- Witness for C6: the spec's malformed-payload example — non-JSON bytes
"not-json" yield a broadcast of the serialized
`{"source":"realtime","payload":{"raw":"not-json"}}` followed by an ack. -/
theorem queue_wrap_and_ack_witness :
    consumeCallback (fun _ => none) (some "not-json") false
      = [QEffect.broadcastMsg
          "\x7b\"source\":\"realtime\",\"payload\":\x7b\"raw\":\"not-json\"\x7d\x7d",
         QEffect.ack]
    ∧ payloadOf (fun _ => none) "not-json"
        = Json.obj [("raw", Json.str "not-json")] := by
  refine ⟨?_, (queue_wrap_and_ack (fun _ => none) "not-json").2.2 rfl⟩
  rw [(queue_wrap_and_ack (fun _ => none) "not-json").1]
  rfl

/-- C7: an inbound client message that parses as JSON is re-broadcast as
its plain serialization (no provenance wrapper) through `broadcast`, which
sends it to every open registered connection — the sender included, being
itself a registered open connection; a message that fails to parse results
in no broadcast at all, and the handler is total (the parse error is
caught, no exception escapes). -/
theorem peer_relay_passthrough (parse : String → Option Json)
    (message : String) :
    (∀ d, parse message = some d →
        messageHandler parse message = some (stringify d)
        ∧ ∀ (clients : List Conn) (c : Conn), c ∈ clients →
            c.readyState = WS_OPEN → c.sendOk = true →
            (c.id, stringify d) ∈ (broadcast clients (stringify d)).delivered)
    ∧ (parse message = none → messageHandler parse message = none) := by
  constructor
  · intro d hd
    constructor
    · simp [messageHandler, hd]
    · intro clients c hc ho hs
      exact broadcastLoop_delivered_mem (stringify d) clients c hc ho hs
  · intro hn
    simp [messageHandler, hn]

/-- Witness for C7: a sender that is the sole registered connection
receives its own parsed message back, unwrapped; and a non-JSON inbound
message broadcasts nothing. -/
theorem peer_relay_passthrough_witness :
    messageHandler (fun _ => some (Json.num 7)) "m"
      = some (stringify (Json.num 7))
    ∧ ((5 : Nat), stringify (Json.num 7)) ∈
        (broadcast [Conn.mk 5 WS_OPEN true true]
          (stringify (Json.num 7))).delivered
    ∧ messageHandler (fun _ => none) "oops" = none :=
  ⟨((peer_relay_passthrough (fun _ => some (Json.num 7)) "m").1
      (Json.num 7) rfl).1,
   ((peer_relay_passthrough (fun _ => some (Json.num 7)) "m").1
      (Json.num 7) rfl).2
      [Conn.mk 5 WS_OPEN true true] (Conn.mk 5 WS_OPEN true true)
      (by decide) rfl rfl,
   (peer_relay_passthrough (fun _ => none) "oops").2 rfl⟩

/-- C8: every delivered queue message is settled exactly once — the
effects of the consumer callback contain exactly one ack-or-nack, never
both and never neither; exception-free processing yields the ack, and an
exception escaping the try block yields a single `nack(msg, false, false)`
(no requeue). -/
theorem ack_nack_exactly_once (parse : String → Option Json)
    (content : String) (bodyThrows : Bool) :
    ((consumeCallback parse (some content) bodyThrows).filter
        isSettlement).length = 1
    ∧ (bodyThrows = false →
        QEffect.ack ∈ consumeCallback parse (some content) false)
    ∧ (bodyThrows = true →
        consumeCallback parse (some content) true = [QEffect.nack false]) := by
  cases bodyThrows <;>
    simp [consumeCallback, isSettlement, List.filter]

/-- Witness for C8: at concrete inputs, the throwing path settles with the
single `nack false` and the normal path contains the ack. -/
theorem ack_nack_exactly_once_witness :
    consumeCallback (fun _ => none) (some "c") true = [QEffect.nack false]
    ∧ QEffect.ack ∈ consumeCallback (fun _ => none) (some "c") false :=
  ⟨(ack_nack_exactly_once (fun _ => none) "c" true).2.2 rfl,
   (ack_nack_exactly_once (fun _ => none) "c" false).2.1 rfl⟩

/-- Counterexample to C9: the WebSocket server is constructed (and starts
accepting client connections) at module load, strictly before `start()`
establishes the queue connection — indeed it listens even on runs where
the queue connection is never established at all. -/
theorem ws_listen_before_queue_cex :
    (startupTrace true).indexOf StartEvent.wsListen
      < (startupTrace true).indexOf StartEvent.queueConnect
    ∧ StartEvent.wsListen ∈ startupTrace false
    ∧ StartEvent.queueConnect ∉ startupTrace false := by
  decide

/-- C9 amended: the readiness log is emitted only after the queue
connection, queue consumption and the liveness monitor are all active (it
is absent from the failed-startup trace and ordered after all three on the
successful trace), but the relay accepts client connections from module
load — the WebSocket listener is the first startup event on every run,
before the queue connection exists. -/
theorem ready_log_after_queue_active :
    StartEvent.readyLog ∉ startupTrace false
    ∧ (startupTrace true).indexOf StartEvent.queueConnect
        < (startupTrace true).indexOf StartEvent.readyLog
    ∧ (startupTrace true).indexOf StartEvent.consumeStart
        < (startupTrace true).indexOf StartEvent.readyLog
    ∧ (startupTrace true).indexOf StartEvent.monitorStart
        < (startupTrace true).indexOf StartEvent.readyLog
    ∧ (startupTrace true).indexOf StartEvent.wsListen = 0
    ∧ (startupTrace false).indexOf StartEvent.wsListen = 0 := by
  decide

/-- C10: every string the relay hands to `broadcast` is the result of
JSON serialization — the peer-relay handler only ever broadcasts
`JSON.stringify` of the parsed message, the queue consumer only ever
broadcasts `JSON.stringify` of the `{source, payload}` wrapper (also when
the queue bytes themselves were not JSON), and the cancellation signal
broadcasts nothing. -/
theorem frames_are_serialized_json (parse : String → Option Json) :
    (∀ message s, messageHandler parse message = some s →
        ∃ j, s = stringify j)
    ∧ (∀ content bodyThrows s,
        QEffect.broadcastMsg s ∈ consumeCallback parse (some content)
            bodyThrows → ∃ j, s = stringify j)
    ∧ (∀ bodyThrows, consumeCallback parse none bodyThrows = []) := by
  refine ⟨?_, ?_, fun _ => rfl⟩
  · intro message s hs
    unfold messageHandler at hs
    cases hp : parse message with
    | none => rw [hp] at hs; cases hs
    | some d =>
      rw [hp] at hs
      exact ⟨d, by injection hs with h; exact h.symm⟩
  · intro content bt s hs
    cases bt with
    | true => simp [consumeCallback] at hs
    | false =>
      simp [consumeCallback] at hs
      exact ⟨Json.obj [("source", Json.str "realtime"),
                       ("payload", payloadOf parse content)], hs⟩

/-- Witness for C10: the serialized frame of the peer-relay handler at a
concrete parsed message is in the range of `stringify`. -/
theorem frames_are_serialized_json_witness :
    ∃ j, stringify (Json.num 7) = stringify j :=
  (frames_are_serialized_json (fun _ => some (Json.num 7))).1
    "m" (stringify (Json.num 7)) rfl
